import Mathlib

/-!
Verification of the `yumdeps` dependency-report tool.

The development shallowly embeds the program's core: the two line
classifiers, the in-memory package/dependency model (`PkgDep` and its
operations), the info-file parser and the delimited-output renderer.
Python dictionaries are modelled as association lists with unique keys in
insertion order; Python exceptions (`ValueError`, `IndexError`) are
modelled with `Except` or explicit error constructors; `sorted()` is
modelled by insertion sort with the lexicographic order on strings.
-/

/-- Keywords used to parse the package information file. -/
def KEY_NAME : String := "Name"

def KEY_ARCH : String := "Arch"

def KEY_VERSION : String := "Version"

def KEY_RELEASE : String := "Release"

def KEY_REPOSITORY : String := "Repo"

def KEY_SUMMARY : String := "Summary"

def KEY_INFO_LIST : List String :=
  [KEY_NAME, KEY_ARCH, KEY_VERSION, KEY_RELEASE, KEY_REPOSITORY, KEY_SUMMARY]

/-- Keywords used to parse the dependency file. -/
def KEY_PACKAGE : String := "package:"

def KEY_DEPENDENCY : String := "dependency:"

def KEY_PROVIDER : String := "provider:"

def KEY_DEP_LIST : List String := [KEY_PACKAGE, KEY_DEPENDENCY, KEY_PROVIDER]

/-- String used to initialize undefined strings. -/
def UNDEFINED : String := "undefined"

/-- Split a character list at every character satisfying `p`, keeping empty
chunks, as Python's `str.split(sep)` does for a one-character separator.
The result is always non-empty. -/
def splitChars (p : Char → Bool) : List Char → List (List Char)
  | [] => [[]]
  | c :: cs =>
    let r := splitChars p cs
    if p c then [] :: r
    else
      match r with
      | [] => [[c]]
      | w :: ws => (c :: w) :: ws

/-- Python `line.split(':')`: split on every colon, keeping empty fields. -/
def pySplitColon (s : String) : List String :=
  (splitChars (fun c => c = ':') s.toList).map (fun w => String.mk w)

/-- Python `line.split()`: split on whitespace runs, dropping empty tokens. -/
def pyWords (s : String) : List String :=
  ((splitChars (fun c => c.isWhitespace) s.toList).filter (fun w => w ≠ [])).map
    (fun w => String.mk w)

/-- Python `s.strip()`: drop leading and trailing whitespace. -/
def pyStrip (s : String) : String :=
  String.mk (((s.toList.dropWhile Char.isWhitespace).reverse.dropWhile
    Char.isWhitespace).reverse)

/-- Python `s.replace(',', ' ')`. -/
def pyReplaceComma (s : String) : String :=
  String.mk (s.toList.map (fun c => if c = ',' then ' ' else c))

/-- Result of `split_info_line`: a recognized `(keyword, value)` pair, the
`(None, None)` no-match answer, or a raised `IndexError`. -/
inductive InfoResult where
  | noMatch : InfoResult
  | matched (key value : String) : InfoResult
  | indexError : InfoResult
deriving DecidableEq

/-- `split_info_line(line)`: split on `':'`; if the trimmed first field is one
of the six info keywords, return it with the trimmed second field (`words[1]`),
else `(None, None)`. Accessing a missing `words[1]` raises `IndexError`. -/
def split_info_line (line : String) : InfoResult :=
  match pySplitColon line with
  | [] => InfoResult.indexError
  | w0 :: rest =>
    let key := pyStrip w0
    if key ∈ KEY_INFO_LIST then
      match rest with
      | w1 :: _ => InfoResult.matched key (pyStrip w1)
      | [] => InfoResult.indexError
    else InfoResult.noMatch

/-- Result of `split_dep_line`: a recognized `(keyword, name, version?)`
triple, the `(None, None, None)` no-match answer, or a raised `IndexError`. -/
inductive DepResult where
  | noMatch : DepResult
  | matched (key name : String) (version : Option String) : DepResult
  | indexError : DepResult
deriving DecidableEq

/-- `split_dep_line(line)`: tokenize on whitespace; dispatch on the first
token among `package:`, `dependency:`, `provider:`. Accessing a missing
`words[0]`, `words[1]` or `words[2]` raises `IndexError`. -/
def split_dep_line (line : String) : DepResult :=
  match pyWords line with
  | [] => DepResult.indexError
  | w0 :: rest =>
    let key := pyStrip w0
    if key = KEY_PACKAGE then
      match rest with
      | w1 :: w2 :: _ => DepResult.matched key (pyStrip w1) (some (pyStrip w2))
      | _ => DepResult.indexError
    else if key = KEY_DEPENDENCY then
      match rest with
      | w1 :: _ => DepResult.matched key (pyStrip w1) none
      | _ => DepResult.indexError
    else if key = KEY_PROVIDER then
      match rest with
      | w1 :: w2 :: _ => DepResult.matched key (pyStrip w1) (some (pyStrip w2))
      | _ => DepResult.indexError
    else DepResult.noMatch

/-- Decidable equality of `Except` values, used to evaluate the embedded
operations on concrete inputs. -/
instance exceptDecidableEq {ε α : Type} [DecidableEq ε] [DecidableEq α] :
    DecidableEq (Except ε α)
  | Except.ok x, Except.ok y =>
    if h : x = y then isTrue (by rw [h])
    else isFalse (by intro hc; injection hc; contradiction)
  | Except.ok _, Except.error _ => isFalse (by intro hc; cases hc)
  | Except.error _, Except.ok _ => isFalse (by intro hc; cases hc)
  | Except.error e, Except.error f =>
    if h : e = f then isTrue (by rw [h])
    else isFalse (by intro hc; injection hc; contradiction)

/-- Attributes stored for a package in the `pkg` dictionary: architecture,
version, release, repository and one-line summary. -/
structure PkgInfo where
  arch : String
  version : String
  release : String
  repository : String
  summary : String
deriving DecidableEq

/-- A provider is a (name, version) pair of strings. -/
abbrev Provider : Type := String × String

/-- Assigning `d[k] = v` in a Python dict: replace the value in place if the
key is present, else append the binding at the end. -/
def alistSet {β : Type} (l : List (String × β)) (k : String) (v : β) :
    List (String × β) :=
  match l with
  | [] => [(k, v)]
  | (k', v') :: t => if k' = k then (k, v) :: t else (k', v') :: alistSet t k v

/-- The `PkgDep` class: the `pkg` dictionary maps a `name.arch` key to the
package attributes, and the `dep` dictionary maps the same keys to a
dictionary from dependency name to provider list. Python dictionaries are
modelled as insertion-ordered association lists with unique keys. -/
structure PkgDep where
  pkg : List (String × PkgInfo)
  dep : List (String × List (String × List Provider))
deriving DecidableEq

/-- `PkgDep.__init__`: both dictionaries empty. -/
def emptyPkgDep : PkgDep := { pkg := [], dep := [] }

/-- `PkgDep.add_package`: insert attributes and reset the key's `dep` entry
to an empty dictionary if the key is new; otherwise log a warning and leave
the model unchanged. -/
def add_package (m : PkgDep) (pkg_name arch version release repository
    summary : String) : PkgDep :=
  match m.pkg.lookup pkg_name with
  | none =>
    { pkg := alistSet m.pkg pkg_name
        { arch := arch, version := version, release := release,
          repository := repository, summary := summary },
      dep := alistSet m.dep pkg_name [] }
  | some _ => m

/-- `PkgDep.add_dependency`: add an empty provider list under
`pkg_name → dep_name` if absent (warning if present); auto-create the
package's `dep` entry when the package is missing from the `dep` dictionary. -/
def add_dependency (m : PkgDep) (pkg_name dep_name : String) : PkgDep :=
  match m.dep.lookup pkg_name with
  | some dmap =>
    match dmap.lookup dep_name with
    | none => { m with dep := alistSet m.dep pkg_name (alistSet dmap dep_name []) }
    | some _ => m
  | none => { m with dep := alistSet m.dep pkg_name [(dep_name, [])] }

/-- `PkgDep.add_provider`: append `(provider, version)` to the provider list
of `pkg_name → dep_name`; raise `ValueError` if the package or the dependency
is missing from the `dep` dictionary. -/
def add_provider (m : PkgDep) (pkg_name dep_name provider version : String) :
    Except String PkgDep :=
  match m.dep.lookup pkg_name with
  | some dmap =>
    match dmap.lookup dep_name with
    | some plist =>
      Except.ok { m with
        dep := alistSet m.dep pkg_name
          (alistSet dmap dep_name (plist ++ [(provider, version)])) }
    | none =>
      Except.error ("dependency " ++ dep_name ++ " for package " ++ pkg_name
        ++ " does not exist")
  | none => Except.error ("package " ++ pkg_name ++ " does not exist")

/-- `PkgDep.get_arch`: architecture accessor; `ValueError` on unknown key. -/
def get_arch (m : PkgDep) (pkg_name : String) : Except String String :=
  match m.pkg.lookup pkg_name with
  | some info => Except.ok info.arch
  | none => Except.error ("package " ++ pkg_name ++ " does not exist")

/-- `PkgDep.get_version`: version accessor; `ValueError` on unknown key. -/
def get_version (m : PkgDep) (pkg_name : String) : Except String String :=
  match m.pkg.lookup pkg_name with
  | some info => Except.ok info.version
  | none => Except.error ("package " ++ pkg_name ++ " does not exist")

/-- `PkgDep.get_release`: release accessor; `ValueError` on unknown key. -/
def get_release (m : PkgDep) (pkg_name : String) : Except String String :=
  match m.pkg.lookup pkg_name with
  | some info => Except.ok info.release
  | none => Except.error ("package " ++ pkg_name ++ " does not exist")

/-- `PkgDep.get_repository`: repository accessor; `ValueError` on unknown key. -/
def get_repository (m : PkgDep) (pkg_name : String) : Except String String :=
  match m.pkg.lookup pkg_name with
  | some info => Except.ok info.repository
  | none => Except.error ("package " ++ pkg_name ++ " does not exist")

/-- `PkgDep.get_summary`: summary accessor; `ValueError` on unknown key. -/
def get_summary (m : PkgDep) (pkg_name : String) : Except String String :=
  match m.pkg.lookup pkg_name with
  | some info => Except.ok info.summary
  | none => Except.error ("package " ++ pkg_name ++ " does not exist")

/-- Python `sorted()` on a list of strings: the ascending lexicographic
reordering, modelled by insertion sort. -/
def sortStrings (l : List String) : List String :=
  List.insertionSort (fun a b => a ≤ b) l

/-- `PkgDep.get_dependency_list`: the sorted list of dependency names of a
package; `ValueError` on unknown key. -/
def get_dependency_list (m : PkgDep) (pkg_name : String) :
    Except String (List String) :=
  match m.dep.lookup pkg_name with
  | some dmap => Except.ok (sortStrings (dmap.map Prod.fst))
  | none => Except.error ("package " ++ pkg_name ++ " does not exist")

/-- `PkgDep.get_provider_list`: the stored provider list of
`pkg_name → dep_name`; `ValueError` on a missing package or dependency (the
source swaps the two error messages, which is kept faithfully). -/
def get_provider_list (m : PkgDep) (pkg_name dep_name : String) :
    Except String (List Provider) :=
  match m.dep.lookup pkg_name with
  | some dmap =>
    match dmap.lookup dep_name with
    | some pl => Except.ok pl
    | none => Except.error ("package " ++ pkg_name ++ " does not exist")
  | none =>
    Except.error ("dependency " ++ dep_name ++ " for package " ++ pkg_name
      ++ " does not exist")

/-- `PkgDep.internal_package`: membership test in the `pkg` dictionary. -/
def internal_package (m : PkgDep) (pkg_name : String) : Bool :=
  (m.pkg.lookup pkg_name).isSome

/-- The provider loop of `internal_dependency`: scan the provider list and
stop at the first provider whose name is an internal package. -/
def providersAnyInternal (m : PkgDep) : List Provider → Bool
  | [] => false
  | p :: rest =>
    if internal_package m p.1 then true else providersAnyInternal m rest

/-- `PkgDep.internal_dependency`: true iff some provider of
`pkg_name → dep_name` is an internal package; lookup errors from
`get_provider_list` propagate. -/
def internal_dependency (m : PkgDep) (pkg_name dep_name : String) :
    Except String Bool :=
  match get_provider_list m pkg_name dep_name with
  | Except.ok pl => Except.ok (providersAnyInternal m pl)
  | Except.error e => Except.error e

/-- The list comprehension in `get_dep_list`: keep the dependencies that are
internal, propagating the first lookup error raised by
`internal_dependency`. -/
def filterInternal (m : PkgDep) (pkg_name : String) :
    List String → Except String (List String)
  | [] => Except.ok []
  | d :: ds =>
    match internal_dependency m pkg_name d with
    | Except.error e => Except.error e
    | Except.ok b =>
      match filterInternal m pkg_name ds with
      | Except.error e => Except.error e
      | Except.ok rest => Except.ok (if b then d :: rest else rest)

/-- `get_dep_list(dep, pkg_name, include_all)`: the package's sorted
dependency list, restricted to internal dependencies when `include_all` is
false. -/
def get_dep_list (m : PkgDep) (pkg_name : String) (include_all : Bool) :
    Except String (List String) :=
  match get_dependency_list m pkg_name with
  | Except.error e => Except.error e
  | Except.ok d_list =>
    if include_all then Except.ok d_list else filterInternal m pkg_name d_list

/-- The line loop of `parse_info_file`, carrying the six field buffers.
On a `Name` line the pending record is flushed (unless the pending name is
still the `undefined` placeholder) and the other buffers reset; any other
recognized keyword overwrites its buffer; unrecognized lines are skipped;
a classifier `IndexError` aborts the parse. At end of input the pending
record is flushed unconditionally under the key `name + "." + arch`. -/
def parseInfoGo (m : PkgDep) (pkg_name pkg_arch pkg_version pkg_release
    pkg_repository pkg_summary : String) :
    List String → Except String PkgDep
  | [] =>
    Except.ok (add_package m (pkg_name ++ "." ++ pkg_arch) pkg_arch pkg_version
      pkg_release pkg_repository pkg_summary)
  | line :: rest =>
    match split_info_line line with
    | InfoResult.indexError => Except.error "IndexError"
    | InfoResult.noMatch =>
      parseInfoGo m pkg_name pkg_arch pkg_version pkg_release pkg_repository
        pkg_summary rest
    | InfoResult.matched key name =>
      if key = KEY_NAME then
        let m' := if pkg_name ≠ UNDEFINED then
            add_package m (pkg_name ++ "." ++ pkg_arch) pkg_arch pkg_version
              pkg_release pkg_repository pkg_summary
          else m
        parseInfoGo m' name UNDEFINED UNDEFINED UNDEFINED UNDEFINED UNDEFINED rest
      else if key = KEY_VERSION then
        parseInfoGo m pkg_name pkg_arch name pkg_release pkg_repository
          pkg_summary rest
      else if key = KEY_RELEASE then
        parseInfoGo m pkg_name pkg_arch pkg_version name pkg_repository
          pkg_summary rest
      else if key = KEY_ARCH then
        parseInfoGo m pkg_name name pkg_version pkg_release pkg_repository
          pkg_summary rest
      else if key = KEY_REPOSITORY then
        parseInfoGo m pkg_name pkg_arch pkg_version pkg_release name
          pkg_summary rest
      else if key = KEY_SUMMARY then
        parseInfoGo m pkg_name pkg_arch pkg_version pkg_release pkg_repository
          name rest
      else
        parseInfoGo m pkg_name pkg_arch pkg_version pkg_release pkg_repository
          pkg_summary rest

/-- `parse_info_file(f, dep)`: all six field buffers start at the
`undefined` placeholder. -/
def parse_info_file (lines : List String) (m : PkgDep) : Except String PkgDep :=
  parseInfoGo m UNDEFINED UNDEFINED UNDEFINED UNDEFINED UNDEFINED UNDEFINED lines

/-- The header line printed by `output_csv`. -/
def CSV_HEADER : String :=
  "Package name,Version,Release,Architecture,Repository,Summary,Dependency,Providers... (*) internal provider"

/-- The `pkg_line` built at the top of the `output_csv` loop: the six package
columns, with commas in the summary replaced by spaces. -/
def csvPkgLine (m : PkgDep) (pkg_name : String) : Except String String :=
  match get_version m pkg_name with
  | Except.error e => Except.error e
  | Except.ok v =>
    match get_release m pkg_name with
    | Except.error e => Except.error e
    | Except.ok r =>
      match get_arch m pkg_name with
      | Except.error e => Except.error e
      | Except.ok a =>
        match get_repository m pkg_name with
        | Except.error e => Except.error e
        | Except.ok repo =>
          match get_summary m pkg_name with
          | Except.error e => Except.error e
          | Except.ok s =>
            Except.ok (pkg_name ++ "," ++ v ++ "," ++ r ++ "," ++ a ++ ","
              ++ repo ++ "," ++ pyReplaceComma s)

/-- The provider loop of `output_csv`: append each provider's name, version
and internal marker to the dependency's line. -/
def csvProviderFold (m : PkgDep) (line : String) : List Provider → String
  | [] => line
  | p :: rest =>
    csvProviderFold m
      (line ++ "," ++ p.1 ++ "," ++ p.2
        ++ (if internal_package m p.1 then ",(*)" else ",")) rest

/-- The dependency loop of `output_csv`: one line per dependency. -/
def csvDepLines (m : PkgDep) (pkg_line pkg_name : String) :
    List String → Except String (List String)
  | [] => Except.ok []
  | dep_name :: ds =>
    match get_provider_list m pkg_name dep_name with
    | Except.error e => Except.error e
    | Except.ok pl =>
      match csvDepLines m pkg_line pkg_name ds with
      | Except.error e => Except.error e
      | Except.ok rest =>
        Except.ok (csvProviderFold m (pkg_line ++ "," ++ dep_name) pl :: rest)

/-- The per-package body of the `output_csv` loop: one line per dependency of
the package, or a single `pkg_line + ",---"` line when the effective
dependency list is empty. -/
def csvPackageLines (m : PkgDep) (print_all : Bool) (pkg_name : String) :
    Except String (List String) :=
  match csvPkgLine m pkg_name with
  | Except.error e => Except.error e
  | Except.ok pkg_line =>
    match get_dep_list m pkg_name print_all with
    | Except.error e => Except.error e
    | Except.ok dep_list =>
      if dep_list.length = 0 then Except.ok [pkg_line ++ ",---"]
      else csvDepLines m pkg_line pkg_name dep_list

/-- The package loop of `output_csv` over the sorted package keys. -/
def csvAllPackages (m : PkgDep) (print_all : Bool) :
    List String → Except String (List String)
  | [] => Except.ok []
  | pkg_name :: ps =>
    match csvPackageLines m print_all pkg_name with
    | Except.error e => Except.error e
    | Except.ok ls =>
      match csvAllPackages m print_all ps with
      | Except.error e => Except.error e
      | Except.ok rest => Except.ok (ls ++ rest)

/-- `output_csv(dep, print_all)` as the list of printed lines. -/
def output_csv (m : PkgDep) (print_all : Bool) : Except String (List String) :=
  match csvAllPackages m print_all (sortStrings (m.pkg.map Prod.fst)) with
  | Except.error e => Except.error e
  | Except.ok ls => Except.ok (CSV_HEADER :: ls)

/-- Specification helper: the boolean value of `internal_dependency`,
defaulting to false on a lookup error. -/
def internalDepB (m : PkgDep) (pkg_name dep_name : String) : Bool :=
  match internal_dependency m pkg_name dep_name with
  | Except.ok b => b
  | Except.error _ => false

/-- Sample model: one internal package `a.x`, and a dependency-map entry for
a key `p` owning a dependency `d` provided by `a.x`. -/
def sampleInfo : PkgInfo :=
  { arch := "x86_64", version := "1.0", release := "1", repository := "base",
    summary := "a tool" }

def mA : PkgDep :=
  { pkg := [("a.x", sampleInfo)], dep := [("p", [("d", [("a.x", "1")])])] }

/-- Sample model: one package `b.x` with an empty dependency dictionary. -/
def mB : PkgDep := { pkg := [("b.x", sampleInfo)], dep := [("b.x", [])] }

theorem lookup_alistSet_self {β : Type} (l : List (String × β)) (k : String)
    (v : β) : (alistSet l k v).lookup k = some v := by
  induction l with
  | nil => simp [alistSet, List.lookup]
  | cons p t ih =>
    obtain ⟨k', v'⟩ := p
    by_cases hk : k' = k
    · subst hk
      simp [alistSet, List.lookup]
    · have hne : (k == k') = false := by
        simp [beq_eq_false_iff_ne]
        exact fun hkk => hk hkk.symm
      simp [alistSet, hk, List.lookup, hne, ih]

theorem lookup_isSome_of_mem_keys {β : Type} (l : List (String × β))
    (a : String) (h : a ∈ l.map Prod.fst) : (l.lookup a).isSome := by
  induction l with
  | nil => simp at h
  | cons p t ih =>
    obtain ⟨k, v⟩ := p
    rw [List.map_cons] at h
    by_cases hk : a = k
    · subst hk
      simp [List.lookup]
    · have hmem : a ∈ t.map Prod.fst := by
        rcases List.mem_cons.mp h with h1 | h1
        · exact absurd h1 hk
        · exact h1
      have hne : (a == k) = false := by
        simp [beq_eq_false_iff_ne, hk]
      simpa [List.lookup, hne] using ih hmem

theorem internal_dependency_ok (m : PkgDep) (pkg_name dep_name : String)
    (dmap : List (String × List Provider)) (pl : List Provider)
    (h1 : m.dep.lookup pkg_name = some dmap)
    (h2 : dmap.lookup dep_name = some pl) :
    internal_dependency m pkg_name dep_name =
      Except.ok (providersAnyInternal m pl) := by
  simp [internal_dependency, get_provider_list, h1, h2]

theorem providersAnyInternal_iff (m : PkgDep) (pl : List Provider) :
    providersAnyInternal m pl = true ↔
      ∃ p ∈ pl, internal_package m p.1 = true := by
  induction pl with
  | nil => simp [providersAnyInternal]
  | cons p rest ih =>
    by_cases hp : internal_package m p.1 = true
    · simp [providersAnyInternal, hp]
    · simp [providersAnyInternal, hp, ih]

theorem filterInternal_eq_filter (m : PkgDep) (pkg_name : String)
    (l : List String)
    (h : ∀ d ∈ l, ∃ b, internal_dependency m pkg_name d = Except.ok b) :
    filterInternal m pkg_name l =
      Except.ok (l.filter (fun d => internalDepB m pkg_name d)) := by
  induction l with
  | nil => rfl
  | cons d ds ih =>
    obtain ⟨b, hb⟩ := h d (List.mem_cons_self d ds)
    have hds := ih (fun x hx => h x (List.mem_cons_of_mem d hx))
    have hB : internalDepB m pkg_name d = b := by
      simp [internalDepB, hb]
    cases b with
    | true => simp [filterInternal, hb, hds, List.filter_cons, hB]
    | false => simp [filterInternal, hb, hds, List.filter_cons, hB]

theorem filterInternal_sublist (m : PkgDep) (pkg_name : String) :
    ∀ (l l' : List String), filterInternal m pkg_name l = Except.ok l' →
      l'.Sublist l := by
  intro l
  induction l with
  | nil =>
    intro l' h
    simp [filterInternal] at h
    simp [← h]
  | cons d ds ih =>
    intro l' h
    simp only [filterInternal] at h
    cases hb : internal_dependency m pkg_name d with
    | error e => rw [hb] at h; cases h
    | ok b =>
      rw [hb] at h
      cases hr : filterInternal m pkg_name ds with
      | error e => rw [hr] at h; cases h
      | ok rest =>
        rw [hr] at h
        have hsub := ih rest hr
        cases b with
        | true =>
          simp at h
          rw [← h]
          exact List.Sublist.cons₂ d hsub
        | false =>
          simp at h
          rw [← h]
          exact List.Sublist.cons d hsub

theorem sortStrings_sorted (l : List String) :
    (sortStrings l).Sorted (fun a b : String => a ≤ b) :=
  List.sorted_insertionSort _ l

theorem splitChars_ne_nil (p : Char → Bool) (l : List Char) :
    splitChars p l ≠ [] := by
  cases l with
  | nil => simp [splitChars]
  | cons c cs =>
    simp only [splitChars]
    by_cases hc : p c = true
    · simp [hc]
    · simp only [hc]
      cases splitChars p cs with
      | nil => simp
      | cons w ws => simp

theorem splitChars_append_sep (p : Char → Bool) (c : Char) (hc : p c = true)
    (t : List Char) : ∀ l : List Char,
    (splitChars p (l ++ c :: t)).getLast? = (splitChars p t).getLast? ∧
    2 ≤ (splitChars p (l ++ c :: t)).length := by
  intro l
  induction l with
  | nil =>
    simp only [List.nil_append, splitChars, hc, if_true]
    cases h : splitChars p t with
    | nil => exact absurd h (splitChars_ne_nil p t)
    | cons w ws =>
      refine ⟨List.getLast?_cons_cons, ?_⟩
      simp
  | cons x l' ih =>
    obtain ⟨ih1, ih2⟩ := ih
    simp only [List.cons_append, splitChars]
    by_cases hx : p x = true
    · simp only [hx, if_true]
      cases h : splitChars p (l' ++ c :: t) with
      | nil => exact absurd h (splitChars_ne_nil p (l' ++ c :: t))
      | cons w ws =>
        rw [h] at ih1 ih2
        refine ⟨?_, ?_⟩
        · rw [List.getLast?_cons_cons]
          exact ih1
        · simp
    · have hx' : p x = false := by simpa using hx
      rw [hx']
      cases h : splitChars p (l' ++ c :: t) with
      | nil => exact absurd h (splitChars_ne_nil p (l' ++ c :: t))
      | cons w ws =>
        rw [h] at ih1 ih2
        simp only [Bool.false_eq_true, if_false]
        cases ws with
        | nil => simp at ih2
        | cons w2 ws2 =>
          refine ⟨?_, ?_⟩
          · show ((x :: w) :: w2 :: ws2).getLast? = (splitChars p t).getLast?
            rw [List.getLast?_cons_cons] at ih1
            rw [List.getLast?_cons_cons]
            exact ih1
          · show 2 ≤ ((x :: w) :: w2 :: ws2).length
            simp




/-- Claim C1 (amended): for every input line containing a ':' whose text
before the first ':' trims to one of the six keywords, `split_info_line`
returns that keyword paired with the trimmed text between the first and the
second ':' (Python's `words[1]`), which omits anything after a further ':'
in the value; a line whose leading colon-field does not trim to a keyword
returns no-match. -/
theorem c1_split_info_line (line : String) :
    (∀ w0 w1 rest, pySplitColon line = w0 :: w1 :: rest →
       pyStrip w0 ∈ KEY_INFO_LIST →
       split_info_line line = InfoResult.matched (pyStrip w0) (pyStrip w1)) ∧
    (∀ w0 rest, pySplitColon line = w0 :: rest →
       pyStrip w0 ∉ KEY_INFO_LIST →
       split_info_line line = InfoResult.noMatch) := by
  constructor
  · intro w0 w1 rest hsplit hkey
    simp [split_info_line, hsplit, hkey]
  · intro w0 rest hsplit hkey
    cases rest with
    | nil => simp [split_info_line, hsplit, hkey]
    | cons w1 r => simp [split_info_line, hsplit, hkey]

/-- Claim C1 counterexample: on the line `"Name: a:b"` the classifier
returns the value `"a"` — the field between the first and second colon —
and not the full remainder `"a:b"` that the claim demands. -/
theorem c1_counterexample :
    split_info_line "Name: a:b" = InfoResult.matched "Name" "a" ∧
    split_info_line "Name: a:b" ≠ InfoResult.matched "Name" "a:b" := by
  decide

/-- Claim C1 witness: concrete instantiation of `c1_split_info_line`. -/
theorem c1_witness :
    split_info_line "Name: x" =
      InfoResult.matched (pyStrip "Name") (pyStrip " x") ∧
    split_info_line "foo" = InfoResult.noMatch :=
  ⟨(c1_split_info_line "Name: x").1 "Name" " x" [] (by decide) (by decide),
   (c1_split_info_line "foo").2 "foo" [] (by decide) (by decide)⟩

/-- Claim C2 (amended): the classifiers return no-match, without raising,
on every line whose leading token is unrecognized: `split_info_line`
whenever the leading colon-field does not trim to an info keyword, and
`split_dep_line` whenever the line has at least one whitespace token and the
first token is not one of the three dependency keywords.  (An empty line, or
a line that trims to a recognized keyword without the tokens that must
follow it, instead raises `IndexError`.) -/
theorem c2_classifiers_no_match (line : String) :
    (∀ w0 rest, pySplitColon line = w0 :: rest →
       pyStrip w0 ∉ KEY_INFO_LIST →
       split_info_line line = InfoResult.noMatch) ∧
    (∀ w0 rest, pyWords line = w0 :: rest →
       pyStrip w0 ∉ KEY_DEP_LIST →
       split_dep_line line = DepResult.noMatch) := by
  constructor
  · intro w0 rest hsplit hkey
    cases rest with
    | nil => simp [split_info_line, hsplit, hkey]
    | cons w1 r => simp [split_info_line, hsplit, hkey]
  · intro w0 rest hsplit hkey
    simp [KEY_DEP_LIST, KEY_PACKAGE, KEY_DEPENDENCY, KEY_PROVIDER] at hkey
    obtain ⟨h1, h2, h3⟩ := hkey
    simp [split_dep_line, hsplit, KEY_PACKAGE, KEY_DEPENDENCY, KEY_PROVIDER,
      h1, h2, h3]

/-- Claim C2 counterexample: a line that trims to the keyword `Version` but
has no ':' makes `split_info_line` raise `IndexError` on `words[1]`, and the
empty line makes `split_dep_line` raise `IndexError` on `words[0]` — neither
returns the no-match answer the claim requires. -/
theorem c2_counterexample :
    split_info_line "Version" = InfoResult.indexError ∧
    split_dep_line "" = DepResult.indexError := by
  decide

/-- Claim C2 witness: concrete instantiation of `c2_classifiers_no_match`. -/
theorem c2_witness :
    split_info_line "* updates: mirror.example.org" = InfoResult.noMatch ∧
    split_dep_line "Loaded plugins" = DepResult.noMatch :=
  ⟨(c2_classifiers_no_match "* updates: mirror.example.org").1 "* updates"
      [" mirror.example.org"] (by decide) (by decide),
   (c2_classifiers_no_match "Loaded plugins").2 "Loaded" ["plugins"]
      (by decide) (by decide)⟩

/-- Claim C3: for a package key present in the dependency map,
`get_dep_list` with `include_all = true` is exactly `get_dependency_list`;
with `include_all = false` it is the subsequence of `get_dependency_list`
whose elements satisfy `internal_dependency`; and a package with zero
dependencies yields the empty list for both flag values. -/
theorem c3_get_dep_list (m : PkgDep) (pkg_name : String)
    (dmap : List (String × List Provider))
    (h : m.dep.lookup pkg_name = some dmap) :
    get_dep_list m pkg_name true = get_dependency_list m pkg_name ∧
    (∀ l, get_dependency_list m pkg_name = Except.ok l →
       get_dep_list m pkg_name false =
         Except.ok (l.filter (fun d => internalDepB m pkg_name d))) ∧
    (get_dependency_list m pkg_name = Except.ok [] →
       ∀ b, get_dep_list m pkg_name b = Except.ok []) := by
  have hdl : get_dependency_list m pkg_name =
      Except.ok (sortStrings (dmap.map Prod.fst)) := by
    simp [get_dependency_list, h]
  refine ⟨?_, ?_, ?_⟩
  · simp [get_dep_list, hdl]
  · intro l hl
    rw [hdl] at hl
    injection hl with hl
    subst hl
    simp only [get_dep_list, hdl, Bool.false_eq_true, if_false]
    apply filterInternal_eq_filter
    intro d hd
    have hd' : d ∈ dmap.map Prod.fst := by
      simpa [sortStrings, List.mem_insertionSort] using hd
    obtain ⟨pl, hpl⟩ :=
      Option.isSome_iff_exists.mp (lookup_isSome_of_mem_keys dmap d hd')
    exact ⟨providersAnyInternal m pl,
      internal_dependency_ok m pkg_name d dmap pl h hpl⟩
  · intro h0 b
    rw [hdl] at h0
    injection h0 with h0
    cases b with
    | true => simp [get_dep_list, hdl, h0]
    | false => simp [get_dep_list, hdl, h0, filterInternal]

/-- Claim C3 witness: concrete instantiation of `c3_get_dep_list`. -/
theorem c3_witness :
    get_dep_list mA "p" true = get_dependency_list mA "p" ∧
    get_dep_list mA "p" false =
      Except.ok ((["d"] : List String).filter
        (fun d => internalDepB mA "p" d)) :=
  ⟨(c3_get_dep_list mA "p" [("d", [("a.x", "1")])] (by decide)).1,
   (c3_get_dep_list mA "p" [("d", [("a.x", "1")])] (by decide)).2.1 ["d"]
      (by decide)⟩

/-- Claim C4: when the provider list of `(pkg_name, dep_name)` is stored,
`internal_dependency` answers true exactly when some provider's name is a
key of the package collection; when `get_provider_list` fails, the failure
propagates unchanged. -/
theorem c4_internal_dependency (m : PkgDep) (pkg_name dep_name : String) :
    (∀ pl, get_provider_list m pkg_name dep_name = Except.ok pl →
       (internal_dependency m pkg_name dep_name = Except.ok true ↔
         ∃ p ∈ pl, internal_package m p.1 = true)) ∧
    (∀ e, get_provider_list m pkg_name dep_name = Except.error e →
       internal_dependency m pkg_name dep_name = Except.error e) := by
  constructor
  · intro pl hpl
    simp [internal_dependency, hpl, providersAnyInternal_iff]
  · intro e he
    simp [internal_dependency, he]

/-- Claim C4 witness: concrete instantiation of `c4_internal_dependency`. -/
theorem c4_witness : internal_dependency mA "p" "d" = Except.ok true :=
  ((c4_internal_dependency mA "p" "d").1 [("a.x", "1")] (by decide)).mpr
    ⟨("a.x", "1"), by decide, by decide⟩

/-- Claim C5: `add_provider` fails with the `ValueError` of a missing
package when the key is absent from the dependency map, fails with the
`ValueError` of a missing dependency when the dependency was never declared
under the key, and in both cases produces no new state (the functional
embedding returns only the error, mirroring that the Python method raises
before mutating); when both exist it appends the `(provider, version)` pair
at the end of that dependency's provider list and leaves the package
dictionary untouched. -/
theorem c5_add_provider (m : PkgDep) (pkg_name dep_name p v : String) :
    (m.dep.lookup pkg_name = none →
       add_provider m pkg_name dep_name p v =
         Except.error ("package " ++ pkg_name ++ " does not exist")) ∧
    (∀ dmap, m.dep.lookup pkg_name = some dmap →
       dmap.lookup dep_name = none →
       add_provider m pkg_name dep_name p v =
         Except.error ("dependency " ++ dep_name ++ " for package "
           ++ pkg_name ++ " does not exist")) ∧
    (∀ dmap pl, m.dep.lookup pkg_name = some dmap →
       dmap.lookup dep_name = some pl →
       ∃ m', add_provider m pkg_name dep_name p v = Except.ok m' ∧
         m'.pkg = m.pkg ∧
         get_provider_list m' pkg_name dep_name =
           Except.ok (pl ++ [(p, v)])) := by
  refine ⟨?_, ?_, ?_⟩
  · intro h
    simp [add_provider, h]
  · intro dmap h1 h2
    simp [add_provider, h1, h2]
  · intro dmap pl h1 h2
    refine ⟨{ m with
      dep := alistSet m.dep pkg_name (alistSet dmap dep_name (pl ++ [(p, v)])) },
      ?_, rfl, ?_⟩
    · simp [add_provider, h1, h2]
    · simp [get_provider_list, lookup_alistSet_self]

/-- Claim C5 witness: concrete instantiation of `c5_add_provider`. -/
theorem c5_witness :
    add_provider mA "nope" "d" "q" "2" =
      Except.error ("package " ++ "nope" ++ " does not exist") ∧
    (∃ m', add_provider mA "p" "d" "q" "2" = Except.ok m' ∧
       m'.pkg = mA.pkg ∧
       get_provider_list m' "p" "d" =
         Except.ok ([("a.x", "1")] ++ [("q", "2")])) :=
  ⟨(c5_add_provider mA "nope" "d" "q" "2").1 (by decide),
   (c5_add_provider mA "p" "d" "q" "2").2.2 [("d", [("a.x", "1")])]
      [("a.x", "1")] (by decide) (by decide)⟩

/-- Claim C6: when the package key already exists in the package collection,
`add_package` with any attribute values returns the model unchanged — the
first definition's attributes and the key's dependency entry are kept. -/
theorem c6_add_package_duplicate (m : PkgDep) (k a v r rp s : String)
    (h : (m.pkg.lookup k).isSome = true) :
    add_package m k a v r rp s = m := by
  cases hl : m.pkg.lookup k with
  | none => rw [hl] at h; simp at h
  | some info => simp [add_package, hl]

/-- Claim C6 witness: concrete instantiation of `c6_add_package_duplicate`. -/
theorem c6_witness : add_package mA "a.x" "z" "9" "8" "r" "s" = mA :=
  c6_add_package_duplicate mA "a.x" "z" "9" "8" "r" "s" (by decide)

/-- Claim C7: `get_dependency_list` always returns an ascending
(lexicographically sorted) list, and `get_dep_list` does so for both values
of the `include_all` flag, for every model state — hence regardless of
insertion order. -/
theorem c7_sorted_listings (m : PkgDep) (pkg_name : String) :
    (∀ l, get_dependency_list m pkg_name = Except.ok l →
       l.Sorted (fun a b : String => a ≤ b)) ∧
    (∀ (all : Bool) l, get_dep_list m pkg_name all = Except.ok l →
       l.Sorted (fun a b : String => a ≤ b)) := by
  constructor
  · intro l hl
    cases hd : m.dep.lookup pkg_name with
    | none => simp [get_dependency_list, hd] at hl
    | some dmap =>
      simp [get_dependency_list, hd] at hl
      rw [← hl]
      exact sortStrings_sorted _
  · intro all l hl
    cases hd : m.dep.lookup pkg_name with
    | none => simp [get_dep_list, get_dependency_list, hd] at hl
    | some dmap =>
      cases all with
      | true =>
        simp [get_dep_list, get_dependency_list, hd] at hl
        rw [← hl]
        exact sortStrings_sorted _
      | false =>
        simp [get_dep_list, get_dependency_list, hd] at hl
        have hsub := filterInternal_sublist m pkg_name _ l hl
        exact List.Pairwise.sublist hsub (sortStrings_sorted _)

/-- Claim C7 witness: concrete instantiation of `c7_sorted_listings`. -/
theorem c7_witness :
    ((["d"] : List String).Sorted (fun a b : String => a ≤ b)) ∧
    ((["d"] : List String).Sorted (fun a b : String => a ≤ b)) :=
  ⟨(c7_sorted_listings mA "p").1 ["d"] (by decide),
   (c7_sorted_listings mA "p").2 false ["d"] (by decide)⟩

theorem parseInfoGo_all_noMatch (lines : List String)
    (h : ∀ l ∈ lines, split_info_line l = InfoResult.noMatch) :
    ∀ (m : PkgDep) (n a v r rp s : String),
      parseInfoGo m n a v r rp s lines =
        Except.ok (add_package m (n ++ "." ++ a) a v r rp s) := by
  induction lines with
  | nil => intro m n a v r rp s; rfl
  | cons line rest ih =>
    intro m n a v r rp s
    have hl := h line (List.mem_cons_self line rest)
    simp only [parseInfoGo, hl]
    exact ih (fun x hx => h x (List.mem_cons_of_mem line hx)) m n a v r rp s

/-- Claim C8 (amended): the info parser flushes the final pending record
unconditionally at end of input, with key `name + "." + arch` built from
whatever the buffers hold.  For an input in which no line is recognized by
the classifier — in particular the empty input — exactly one package is
added, with the degenerate key `undefined.undefined` and every attribute
equal to `undefined`.  (With no `Name` line but a recognized `Arch` line the
flushed key is `undefined.` followed by that arch instead, and a keyword
line lacking its `:` aborts the parse with an `IndexError` before the final
flush.) -/
theorem c8_flush_final_record (lines : List String)
    (h : ∀ l ∈ lines, split_info_line l = InfoResult.noMatch) :
    parse_info_file lines emptyPkgDep =
      Except.ok ⟨[("undefined.undefined",
        ⟨UNDEFINED, UNDEFINED, UNDEFINED, UNDEFINED, UNDEFINED⟩)],
        [("undefined.undefined", [])]⟩ := by
  rw [parse_info_file, parseInfoGo_all_noMatch lines h]
  decide

/-- Claim C8 counterexample: the input consisting of the single line
`"Arch: i686"` contains no `Name` line, yet the parser flushes the final
record under the key `undefined.i686`, not `undefined.undefined`. -/
theorem c8_counterexample :
    split_info_line "Arch: i686" = InfoResult.matched "Arch" "i686" ∧
    parse_info_file ["Arch: i686"] emptyPkgDep =
      Except.ok ⟨[("undefined.i686",
        ⟨"i686", "undefined", "undefined", "undefined", "undefined"⟩)],
        [("undefined.i686", [])]⟩ ∧
    ("undefined.i686" : String) ≠ "undefined.undefined" := by
  refine ⟨by decide, ?_, by decide⟩
  decide

/-- Claim C8 witness: concrete instantiation of `c8_flush_final_record`. -/
theorem c8_witness :
    parse_info_file ["Loaded plugins", ""] emptyPkgDep =
      Except.ok ⟨[("undefined.undefined",
        ⟨UNDEFINED, UNDEFINED, UNDEFINED, UNDEFINED, UNDEFINED⟩)],
        [("undefined.undefined", [])]⟩ :=
  c8_flush_final_record ["Loaded plugins", ""] (by decide)

/-- Claim C9: in the delimited output, a package whose effective dependency
list is empty produces exactly one row: the six package columns followed by
the literal `---` as the final comma-separated field (splitting the row on
commas, the last field is `---`, never an empty trailing field). -/
theorem c9_csv_empty_row (m : PkgDep) (print_all : Bool)
    (pkg_name pkg_line : String)
    (h1 : csvPkgLine m pkg_name = Except.ok pkg_line)
    (h2 : get_dep_list m pkg_name print_all = Except.ok []) :
    csvPackageLines m print_all pkg_name = Except.ok [pkg_line ++ ",---"] ∧
    (splitChars (fun c => c = ',') (pkg_line ++ ",---").toList).getLast? =
      some ['-', '-', '-'] := by
  constructor
  · simp [csvPackageLines, h1, h2]
  · have ht : (pkg_line ++ ",---").toList =
        pkg_line.toList ++ ',' :: ['-', '-', '-'] := by
      show (pkg_line ++ ",---").data = _
      rw [String.data_append]
      rfl
    rw [ht,
      (splitChars_append_sep (fun c => c = ',') ',' (by decide) ['-', '-', '-']
        pkg_line.toList).1]
    decide

/-- Claim C9 witness: concrete instantiation of `c9_csv_empty_row`. -/
theorem c9_witness :
    csvPackageLines mB true "b.x" =
      Except.ok ["b.x,1.0,1,x86_64,base,a tool" ++ ",---"] ∧
    (splitChars (fun c => c = ',')
      ("b.x,1.0,1,x86_64,base,a tool" ++ ",---").toList).getLast? =
      some ['-', '-', '-'] :=
  c9_csv_empty_row mB true "b.x" "b.x,1.0,1,x86_64,base,a tool" (by decide)
    (by decide)

/-- Claim C10: when a key is absent from the package collection but already
present in the dependency map, `add_package` replaces the key's dependency
entry with a fresh empty dictionary — discarding whatever dependencies and
providers `dmap` held — while storing the new attributes. -/
theorem c10_add_package_resets_dep (m : PkgDep) (k a v r rp s : String)
    (dmap : List (String × List Provider))
    (h1 : m.pkg.lookup k = none) (_h2 : m.dep.lookup k = some dmap) :
    (add_package m k a v r rp s).dep.lookup k = some [] ∧
    (add_package m k a v r rp s).pkg.lookup k =
      some { arch := a, version := v, release := r, repository := rp,
             summary := s } := by
  simp [add_package, h1, lookup_alistSet_self]

/-- Claim C10 witness: the dependency entry auto-created by `add_dependency`
for the unknown key `k` (holding dependency `d`) is discarded by a later
`add_package` for `k`. -/
theorem c10_witness :
    (add_package (add_dependency emptyPkgDep "k" "d") "k" "a" "v" "r" "c"
      "s").dep.lookup "k" = some [] ∧
    (add_package (add_dependency emptyPkgDep "k" "d") "k" "a" "v" "r" "c"
      "s").pkg.lookup "k" =
      some { arch := "a", version := "v", release := "r", repository := "c",
             summary := "s" } :=
  c10_add_package_resets_dep (add_dependency emptyPkgDep "k" "d") "k" "a" "v"
    "r" "c" "s" [("d", [])] (by decide) (by decide)
